import Mathlib

/-!
Verification development for the CSV ingestion pipeline
(`csv-processor-function/main.py`).

The Python source is shallowly embedded below:
* `generate_upload_id` mirrors the fingerprint function (SHA-256 over a
  hyphen-separated concatenation, truncated to 16 hex characters);
* `process_csv_upload` mirrors the storage-event handler, with the
  Firestore document for the computed upload id modelled as an
  `Option UploadRec` and the fallible collaborators (the Firestore
  `get` and the blob download) modelled as explicit outcomes carried by
  the invocation context `EventCtx`;
* `process_csv_file` mirrors the content validation;
* `get_upload_status` mirrors the HTTP status-lookup endpoint;
* `stepInv` / `crun` give the fine-grained interleaving semantics of the
  handler, one atomic store operation (read, claim write, finalize
  write) per step, used for the concurrency claims.
-/

namespace CsvPipeline

/-! ### SHA-256 (model of Python `hashlib.sha256`) -/

namespace SHA256

/-- Truncate to a 32-bit word. -/
def w32 (x : Nat) : Nat := x % 4294967296

/-- Rotate a 32-bit word right. -/
def rotr (n x : Nat) : Nat := w32 ((x >>> n) ||| (x <<< (32 - n)))

def bigS0 (x : Nat) : Nat := rotr 2 x ^^^ rotr 13 x ^^^ rotr 22 x

def bigS1 (x : Nat) : Nat := rotr 6 x ^^^ rotr 11 x ^^^ rotr 25 x

def smallS0 (x : Nat) : Nat := rotr 7 x ^^^ rotr 18 x ^^^ (x >>> 3)

def smallS1 (x : Nat) : Nat := rotr 17 x ^^^ rotr 19 x ^^^ (x >>> 10)

def ch (x y z : Nat) : Nat := (x &&& y) ^^^ ((x ^^^ 4294967295) &&& z)

def maj (x y z : Nat) : Nat := (x &&& y) ^^^ (x &&& z) ^^^ (y &&& z)

/-- Round constants of FIPS 180-4 (cube-root fractions of the first 64
primes), written in decimal. -/
def K : List Nat :=
  [1116352408, 1899447441, 3049323471, 3921009573, 961987163, 1508970993,
   2453635748, 2870763221, 3624381080, 310598401, 607225278, 1426881987,
   1925078388, 2162078206, 2614888103, 3248222580, 3835390401, 4022224774,
   264347078, 604807628, 770255983, 1249150122, 1555081692, 1996064986,
   2554220882, 2821834349, 2952996808, 3210313671, 3336571891, 3584528711,
   113926993, 338241895, 666307205, 773529912, 1294757372, 1396182291,
   1695183700, 1986661051, 2177026350, 2456956037, 2730485921, 2820302411,
   3259730800, 3345764771, 3516065817, 3600352804, 4094571909, 275423344,
   430227734, 506948616, 659060556, 883997877, 958139571, 1322822218,
   1537002063, 1747873779, 1955562222, 2024104815, 2227730452, 2361852424,
   2428436474, 2756734187, 3204031479, 3329325298]

/-- Initial hash state of FIPS 180-4 (square-root fractions of the
first 8 primes), written in decimal. -/
def H0 : List Nat :=
  [1779033703, 3144134277, 1013904242, 2773480762,
   1359893119, 2600822924, 528734635, 1541459225]

/-- Big-endian length field (message length in bits, 8 bytes). -/
def lenBytes (n : Nat) : List Nat :=
  (List.range 8).map (fun i => (n >>> (8 * (7 - i))) % 256)

/-- Merkle–Damgård padding to a multiple of 64 bytes. -/
def pad (msg : List Nat) : List Nat :=
  let L := msg.length
  let k := (119 - L % 64) % 64
  msg ++ 0x80 :: List.replicate k 0 ++ lenBytes (8 * L)

/-- Group bytes into big-endian 32-bit words. -/
def toWords : List Nat → List Nat
  | b0 :: b1 :: b2 :: b3 :: rest =>
    (b0 * 16777216 + b1 * 65536 + b2 * 256 + b3) :: toWords rest
  | _ => []

/-- One extension step of the message schedule. -/
def extendStep (w : List Nat) : List Nat :=
  let n := w.length
  w ++ [w32 (smallS1 (w.getD (n - 2) 0) + w.getD (n - 7) 0 +
             smallS0 (w.getD (n - 15) 0) + w.getD (n - 16) 0)]

/-- Extend the 16-word schedule by the given number of words. -/
def extendW (w : List Nat) : Nat → List Nat
  | 0 => w
  | k + 1 => extendW (extendStep w) k

/-- One compression round; the state is the 8-word vector. -/
def round (st : List Nat) (kw : Nat) : List Nat :=
  match st with
  | [a, b, c, d, e, f, g, h] =>
    let T1 := w32 (h + bigS1 e + ch e f g + kw)
    let T2 := w32 (bigS0 a + maj a b c)
    [w32 (T1 + T2), a, b, c, w32 (d + T1), e, f, g]
  | _ => st

/-- Compress one 64-byte block into the running state. -/
def compress (H : List Nat) (block : List Nat) : List Nat :=
  let W := extendW (toWords block) 48
  let KW := (List.zip K W).map (fun p => w32 (p.1 + p.2))
  let st := KW.foldl round H
  (List.zip H st).map (fun p => w32 (p.1 + p.2))

/-- Split a byte list into 64-byte blocks. -/
def chunks (l : List Nat) : List (List Nat) :=
  if h : l = [] then [] else l.take 64 :: chunks (l.drop 64)
termination_by l.length
decreasing_by
  simp only [List.length_drop]
  exact Nat.sub_lt (List.length_pos.mpr h) (by norm_num)

/-- SHA-256 digest of a byte sequence, as eight 32-bit words. -/
def sha256words (msg : List Nat) : List Nat := (chunks (pad msg)).foldl compress H0

def hexChar (n : Nat) : Char :=
  if n < 10 then Char.ofNat (48 + n) else Char.ofNat (87 + n)

def wordHex (w : Nat) : List Char :=
  (List.range 8).map (fun i => hexChar ((w >>> (4 * (7 - i))) % 16))

/-- UTF-8 bytes of a character (model of Python `str.encode()`). -/
def utf8Bytes (c : Char) : List Nat :=
  let n := c.toNat
  if n < 128 then [n]
  else if n < 2048 then [192 + n / 64, 128 + n % 64]
  else if n < 65536 then [224 + n / 4096, 128 + (n / 64) % 64, 128 + n % 64]
  else [240 + n / 262144, 128 + (n / 4096) % 64, 128 + (n / 64) % 64, 128 + n % 64]

def strBytes (s : String) : List Nat := (s.data.map utf8Bytes).flatten

/-- Model of `hashlib.sha256(s.encode()).hexdigest()`. -/
def sha256hexdigest (s : String) : String :=
  String.mk (((sha256words (strBytes s)).map wordHex).flatten)

end SHA256

/-! ### Fingerprint (`generate_upload_id`, main.py lines 13-16) -/

/-- The canonical concatenation hashed by `generate_upload_id`:
`f"{bucket_name}-{file_name}-{file_size}-{created_time}"`. -/
def uploadContent (bucket_name file_name : String) (file_size : Nat)
    (created_time : String) : String :=
  bucket_name ++ "-" ++ file_name ++ "-" ++ toString file_size ++ "-" ++ created_time

/-- Function `generate_upload_id` from main.py: SHA-256 hex digest of the
concatenation, truncated to the first 16 characters. -/
def generate_upload_id (bucket_name file_name : String) (file_size : Nat)
    (created_time : String) : String :=
  (SHA256.sha256hexdigest (uploadContent bucket_name file_name file_size created_time)).take 16

/-! ### Python string primitives used by the handler

Structurally recursive models of `str.lower`, `str.endswith` and
`str.split(sep)` (the core `String` versions are equivalent but are
defined by well-founded recursion on byte positions, which blocks
evaluation inside proofs). -/

/-- Python `str.lower`, characterwise. -/
def pyLower (s : String) : String := String.mk (s.data.map Char.toLower)

/-- Python `str.endswith`: suffix test on the character sequence. -/
def pyEndsWith (s suffix : String) : Bool := suffix.data.isSuffixOf s.data

/-- Split a character list at every occurrence of the separator
character; Python `str.split(sep)` semantics, so the empty string
yields one empty piece. -/
def splitOnChar (c : Char) : List Char → List (List Char)
  | [] => [[]]
  | x :: xs =>
    if x = c then [] :: splitOnChar c xs
    else
      match splitOnChar c xs with
      | [] => [[x]]
      | y :: ys => (x :: y) :: ys

/-- Python `csv_content.split('\n')`. -/
def pySplitLines (s : String) : List String :=
  (splitOnChar '\n' s.data).map String.mk

/-- Reference decimal digit list of a natural number (most significant
first), used to reason about the rendering of `file_size` inside the
concatenation. -/
def decDigits (n : Nat) : List Char :=
  if n < 10 then [Nat.digitChar n]
  else decDigits (n / 10) ++ [Nat.digitChar (n % 10)]
termination_by n
decreasing_by
  exact Nat.div_lt_self (by omega) (by norm_num)

/-! ### Data model: the Firestore document for one upload id -/

/-- The persisted upload record.  Fields are exactly the keys the Python
code ever writes into the `uploads` collection; timestamps are abstract
`Nat` instants standing for `firestore.SERVER_TIMESTAMP` values, and a
field the code has not written is `none`. -/
structure UploadRec where
  upload_id : String
  bucket_name : String
  file_name : String
  file_size : Nat
  created_time : Option String
  status : String
  processing_started_at : Option Nat
  processing_completed_at : Option Nat
  updated_at : Option Nat
  error_message : Option String
  lines_processed : Option Nat
deriving DecidableEq, Repr

/-- Context of one handler invocation: the storage event fields, the
blob metadata, and the outcomes of the fallible collaborator calls.
`content` is the result of `blob.download_as_text()` inside
`process_csv_file` (an exception or the text).  `getFault` is `some msg`
when the Firestore `get` on line 53 raises with message `msg`.
`t1`, `t2`, `t3` are the server timestamps assigned to the claim write,
the finalize write, and the error-path write respectively. -/
structure EventCtx where
  bucket : String
  name : String
  size : Nat
  time_created : Option String
  content : Except String String
  getFault : Option String
  t1 : Nat
  t2 : Nat
  t3 : Nat
deriving Repr

/-- Lines 55-68: decide from the fetched document whether to return
early.  A `done` or `processing` status skips; `failed`, any other
status, and an absent document proceed. -/
def should_skip (doc : Option UploadRec) : Bool :=
  match doc with
  | none => false
  | some r => r.status = "done" || r.status = "processing"

/-- Lines 70-84: `upload_ref.set(upload_data, merge=True)`.  The write
set (identity, metadata, `status := "processing"`,
`processing_started_at`, `updated_at`) overwrites those fields; with
`merge=True` any other field of an existing document is preserved, and
an absent document is created with only the written fields. -/
def claim_write (ctx : EventCtx) (uid : String) (doc : Option UploadRec) : UploadRec :=
  match doc with
  | none =>
    { upload_id := uid
      bucket_name := ctx.bucket
      file_name := ctx.name
      file_size := ctx.size
      created_time := ctx.time_created
      status := "processing"
      processing_started_at := some ctx.t1
      processing_completed_at := none
      updated_at := some ctx.t1
      error_message := none
      lines_processed := none }
  | some r =>
    { r with
      upload_id := uid
      bucket_name := ctx.bucket
      file_name := ctx.name
      file_size := ctx.size
      created_time := ctx.time_created
      status := "processing"
      processing_started_at := some ctx.t1
      updated_at := some ctx.t1 }

/-- Lines 89-104: `upload_ref.update(...)` after processing; updates
only the listed fields of the existing document. -/
def finalize_write (success : Bool) (t2 : Nat) (r : UploadRec) : UploadRec :=
  if success then
    { r with status := "done", processing_completed_at := some t2, updated_at := some t2 }
  else
    { r with
      status := "failed"
      error_message := some "Processing failed"
      updated_at := some t2 }

/-- Lines 109-118: the best-effort failure recording in the outer
exception handler.  `update` on an absent document raises, which the
bare `except: pass` swallows, leaving the store unchanged. -/
def record_failure (msg : String) (t3 : Nat) (doc : Option UploadRec) : Option UploadRec :=
  match doc with
  | none => none
  | some r =>
    some { r with status := "failed", error_message := some msg, updated_at := some t3 }

/-- Function `process_csv_file` (lines 121-158): a download exception is caught
inside and yields `False`; otherwise the text is split on newlines and
a file with fewer than two pieces is rejected. -/
def process_csv_file (content : Except String String) : Bool :=
  match content with
  | .error _ => false
  | .ok csv =>
    if (pySplitLines csv).length < 2 then false else true

/-- Function `process_csv_upload` (lines 19-118) as one sequential (atomic)
invocation against the document `store` for the computed upload id.
The second component records whether an exception escapes to the
functions-framework caller; the outer `try`/`except` catches
everything, so it is `false` on every path. -/
def process_csv_upload (ctx : EventCtx) (store : Option UploadRec) :
    Option UploadRec × Bool :=
  if pyEndsWith (pyLower ctx.name) ".csv" = false then (store, false)
  else
    let uid := generate_upload_id ctx.bucket ctx.name ctx.size (ctx.time_created.getD "")
    match ctx.getFault with
    | some msg => (record_failure msg ctx.t3 store, false)
    | none =>
      if should_skip store then (store, false)
      else
        (some (finalize_write (process_csv_file ctx.content) ctx.t2
               (claim_write ctx uid store)), false)

/-! ### Fine-grained interleaving semantics of the handler

Each invocation performs three store operations in sequence: the status
read (lines 52-68), the claim write (line 83), and the finalize write
(lines 91-103).  `stepInv` executes one such atomic operation; between
two operations of one invocation another invocation may act on the
shared document. -/

inductive Phase where
  | start
  | willClaim
  | claimed
  | finished
deriving DecidableEq, Repr

/-- One atomic store operation of an invocation in phase `p` against the
current document. -/
def stepInv (ctx : EventCtx) (store : Option UploadRec) : Phase → Option UploadRec × Phase
  | .start =>
    if pyEndsWith (pyLower ctx.name) ".csv" = false then (store, .finished)
    else
      match ctx.getFault with
      | some msg => (record_failure msg ctx.t3 store, .finished)
      | none =>
        if should_skip store then (store, .finished) else (store, .willClaim)
  | .willClaim =>
    let uid := generate_upload_id ctx.bucket ctx.name ctx.size (ctx.time_created.getD "")
    (some (claim_write ctx uid store), .claimed)
  | .claimed =>
    match store with
    | some r => (some (finalize_write (process_csv_file ctx.content) ctx.t2 r), .finished)
    | none => (none, .finished)
  | .finished => (store, .finished)

/-- Shared state of two concurrent invocations A and B for the same
upload id. -/
structure CState where
  store : Option UploadRec
  pa : Phase
  pb : Phase
deriving DecidableEq, Repr

/-- Let invocation A (`who = true`) or B (`who = false`) perform its
next atomic store operation. -/
def cstep (ctxA ctxB : EventCtx) (s : CState) (who : Bool) : CState :=
  if who then
    let r := stepInv ctxA s.store s.pa
    { store := r.1, pa := r.2, pb := s.pb }
  else
    let r := stepInv ctxB s.store s.pb
    { store := r.1, pa := s.pa, pb := r.2 }

/-- Run a schedule (a list of which invocation acts next). -/
def crun (ctxA ctxB : EventCtx) (sched : List Bool) (s : CState) : CState :=
  sched.foldl (cstep ctxA ctxB) s

/-- Running the three phases of one invocation back to back, with no
interleaving, from any store. -/
def runAlone (ctx : EventCtx) (store : Option UploadRec) : Option UploadRec :=
  let a := stepInv ctx store .start
  let b := stepInv ctx a.1 a.2
  let c := stepInv ctx b.1 b.2
  c.1

/-! ### HTTP status endpoint (`get_upload_status`, lines 161-180) -/

inductive HttpBody where
  | errBody (msg : String)
  | recBody (r : UploadRec)
deriving DecidableEq, Repr

/-- Endpoint `get_upload_status`: `uploadId` is `request.args.get('upload_id')`
(`none` when the parameter is absent; the empty string is also falsy in
Python).  `store` maps an id to the outcome of the Firestore read: an
exception message or the document. -/
def get_upload_status (uploadId : Option String)
    (store : String → Except String (Option UploadRec)) : HttpBody × Nat :=
  match uploadId with
  | none => (.errBody "upload_id parameter is required", 400)
  | some uid =>
    if uid = "" then (.errBody "upload_id parameter is required", 400)
    else
      match store uid with
      | .error e => (.errBody e, 500)
      | .ok none => (.errBody "Upload ID not found", 404)
      | .ok (some r) => (.recBody r, 200)

/-! ### Concrete fixtures used by witnesses and counterexamples -/

/-- A well-formed invocation: a CSV upload whose content has a header
row and a data row, with all collaborators healthy. -/
def ctxOk : EventCtx :=
  { bucket := "my-bucket"
    name := "data.csv"
    size := 120
    time_created := some "2024-01-01T00:00:00"
    content := .ok "h1,h2\nv1,v2"
    getFault := none
    t1 := 1
    t2 := 2
    t3 := 3 }

/-- A record already processed to completion. -/
def recDone : UploadRec :=
  { upload_id := "id1"
    bucket_name := "my-bucket"
    file_name := "data.csv"
    file_size := 120
    created_time := some "2024-01-01T00:00:00"
    status := "done"
    processing_started_at := some 1
    processing_completed_at := some 2
    updated_at := some 2
    error_message := none
    lines_processed := none }

/-- A record whose previous processing attempt failed. -/
def recFailed : UploadRec :=
  { recDone with
    status := "failed"
    processing_completed_at := none
    error_message := some "Processing failed" }

/-- A record currently claimed by another invocation. -/
def recProcessing : UploadRec :=
  { recDone with
    status := "processing"
    processing_completed_at := none }

/-! ### Helper lemmas: decimal rendering and string cancellation -/

theorem string_data_inj {a b : String} (h : a.data = b.data) : a = b := by
  cases a; cases b; simp only at h; rw [h]

theorem string_append_right_cancel {x y z : String} (h : x ++ z = y ++ z) : x = y := by
  apply string_data_inj
  have hd := congrArg String.data h
  simp only [String.data_append] at hd
  exact List.append_cancel_right hd

theorem string_append_left_cancel {x y z : String} (h : x ++ y = x ++ z) : y = z := by
  apply string_data_inj
  have hd := congrArg String.data h
  simp only [String.data_append] at hd
  exact List.append_cancel_left hd

theorem digitChar_inj {a b : Nat} (ha : a < 10) (hb : b < 10)
    (h : Nat.digitChar a = Nat.digitChar b) : a = b := by
  interval_cases a <;> interval_cases b <;> simp_all [Nat.digitChar]

theorem decDigits_small {n : Nat} (h : n < 10) : decDigits n = [Nat.digitChar n] := by
  rw [decDigits, if_pos h]

theorem decDigits_large {n : Nat} (h : ¬ n < 10) :
    decDigits n = decDigits (n / 10) ++ [Nat.digitChar (n % 10)] := by
  rw [decDigits, if_neg h]

theorem toDigitsCore_eq_decDigits :
    ∀ (f n : Nat) (ds : List Char), n < f →
      Nat.toDigitsCore 10 f n ds = decDigits n ++ ds := by
  intro f
  induction f with
  | zero => intro n ds h; omega
  | succ f ih =>
    intro n ds h
    have hstep : Nat.toDigitsCore 10 (f + 1) n ds
        = if n / 10 = 0 then Nat.digitChar (n % 10) :: ds
          else Nat.toDigitsCore 10 f (n / 10) (Nat.digitChar (n % 10) :: ds) := rfl
    rw [hstep]
    by_cases h10 : n / 10 = 0
    · have hn : n < 10 := by omega
      rw [if_pos h10, decDigits_small hn, Nat.mod_eq_of_lt hn]
      rfl
    · have hge : ¬ n < 10 := by omega
      have hdl : n / 10 < n := Nat.div_lt_self (by omega) (by norm_num)
      have hlt : n / 10 < f := by omega
      rw [if_neg h10, ih (n / 10) _ hlt, decDigits_large hge]
      simp

theorem toDigits_eq_decDigits (n : Nat) : Nat.toDigits 10 n = decDigits n := by
  rw [Nat.toDigits, toDigitsCore_eq_decDigits (n + 1) n [] (Nat.lt_succ_self n),
    List.append_nil]

theorem decDigits_ne_nil (n : Nat) : decDigits n ≠ [] := by
  rw [decDigits]; split <;> simp

theorem decDigits_inj : ∀ {m n : Nat}, decDigits m = decDigits n → m = n := by
  intro m
  induction m using Nat.strong_induction_on with
  | _ m ih =>
    intro n h
    by_cases hm : m < 10 <;> by_cases hn : n < 10
    · rw [decDigits_small hm, decDigits_small hn] at h
      have hc : Nat.digitChar m = Nat.digitChar n := by simpa using h
      exact digitChar_inj hm hn hc
    · rw [decDigits_small hm, decDigits_large hn] at h
      have hlen := congrArg List.length h
      simp only [List.length_append, List.length_cons, List.length_nil] at hlen
      have h0 : (decDigits (n / 10)).length = 0 := by omega
      exact absurd (List.length_eq_zero.mp h0) (decDigits_ne_nil _)
    · rw [decDigits_large hm, decDigits_small hn] at h
      have hlen := congrArg List.length h
      simp only [List.length_append, List.length_cons, List.length_nil] at hlen
      have h0 : (decDigits (m / 10)).length = 0 := by omega
      exact absurd (List.length_eq_zero.mp h0) (decDigits_ne_nil _)
    · rw [decDigits_large hm, decDigits_large hn] at h
      have h2 := congrArg List.reverse h
      simp only [List.reverse_append, List.reverse_cons, List.reverse_nil,
        List.nil_append, List.singleton_append, List.cons.injEq] at h2
      obtain ⟨hd, htl⟩ := h2
      have hml : m / 10 < m := Nat.div_lt_self (by omega) (by norm_num)
      have hdiv : m / 10 = n / 10 :=
        ih (m / 10) hml (List.reverse_injective htl)
      have hm10 : m % 10 < 10 := Nat.mod_lt _ (by norm_num)
      have hn10 : n % 10 < 10 := Nat.mod_lt _ (by norm_num)
      have hmod : m % 10 = n % 10 := digitChar_inj hm10 hn10 hd
      omega

theorem natToString_inj {m n : Nat} (h : toString m = toString n) : m = n := by
  have h2 : (Nat.toDigits 10 m).asString = (Nat.toDigits 10 n).asString := h
  have h3 : Nat.toDigits 10 m = Nat.toDigits 10 n := by
    have h4 := congrArg String.data h2
    simpa [List.asString] using h4
  rw [toDigits_eq_decDigits, toDigits_eq_decDigits] at h3
  exact decDigits_inj h3

/-- Regrouping of the concatenation for cancellation arguments. -/
theorem uploadContent_assoc (b f : String) (s : Nat) (c : String) :
    uploadContent b f s c
      = b ++ ("-" ++ (f ++ ("-" ++ (toString s ++ ("-" ++ c))))) := by
  simp [uploadContent, String.append_assoc]

theorem uploadContent_bucket_inj {b b2 f : String} {s : Nat} {c : String}
    (h : uploadContent b f s c = uploadContent b2 f s c) : b = b2 := by
  rw [uploadContent_assoc, uploadContent_assoc] at h
  exact string_append_right_cancel h

theorem uploadContent_file_inj {b f f2 : String} {s : Nat} {c : String}
    (h : uploadContent b f s c = uploadContent b f2 s c) : f = f2 := by
  rw [uploadContent_assoc, uploadContent_assoc] at h
  exact string_append_right_cancel
    (string_append_left_cancel (string_append_left_cancel h))

theorem uploadContent_size_inj {b f : String} {s s2 : Nat} {c : String}
    (h : uploadContent b f s c = uploadContent b f s2 c) : s = s2 := by
  rw [uploadContent_assoc, uploadContent_assoc] at h
  exact natToString_inj (string_append_right_cancel
    (string_append_left_cancel (string_append_left_cancel
      (string_append_left_cancel (string_append_left_cancel h)))))

theorem uploadContent_created_inj {b f : String} {s : Nat} {c c2 : String}
    (h : uploadContent b f s c = uploadContent b f s c2) : c = c2 := by
  rw [uploadContent_assoc, uploadContent_assoc] at h
  exact string_append_left_cancel (string_append_left_cancel
    (string_append_left_cancel (string_append_left_cancel
      (string_append_left_cancel (string_append_left_cancel h)))))

/-! ### Shape lemmas: the four branches of the handler -/

theorem process_csv_upload_nonCsv (ctx : EventCtx) (store : Option UploadRec)
    (hc : pyEndsWith (pyLower ctx.name) ".csv" = false) :
    process_csv_upload ctx store = (store, false) := by
  unfold process_csv_upload
  rw [hc]
  rfl

theorem process_csv_upload_fault (ctx : EventCtx) (store : Option UploadRec)
    (msg : String)
    (hc : pyEndsWith (pyLower ctx.name) ".csv" = true)
    (hg : ctx.getFault = some msg) :
    process_csv_upload ctx store = (record_failure msg ctx.t3 store, false) := by
  unfold process_csv_upload
  rw [hc, hg]
  rfl

theorem process_csv_upload_skip (ctx : EventCtx) (store : Option UploadRec)
    (hc : pyEndsWith (pyLower ctx.name) ".csv" = true)
    (hg : ctx.getFault = none)
    (hs : should_skip store = true) :
    process_csv_upload ctx store = (store, false) := by
  unfold process_csv_upload
  rw [hc, hg, hs]
  rfl

theorem process_csv_upload_proceed (ctx : EventCtx) (store : Option UploadRec)
    (hc : pyEndsWith (pyLower ctx.name) ".csv" = true)
    (hg : ctx.getFault = none)
    (hs : should_skip store = false) :
    process_csv_upload ctx store
      = (some (finalize_write (process_csv_file ctx.content) ctx.t2
          (claim_write ctx
            (generate_upload_id ctx.bucket ctx.name ctx.size (ctx.time_created.getD ""))
            store)), false) := by
  unfold process_csv_upload
  rw [hc, hg, hs]
  rfl

theorem claim_write_lines (ctx : EventCtx) (uid : String) (doc : Option UploadRec) :
    (claim_write ctx uid doc).lines_processed
      = doc.bind (fun r => r.lines_processed) := by
  cases doc <;> rfl

theorem finalize_write_lines (success : Bool) (t : Nat) (r : UploadRec) :
    (finalize_write success t r).lines_processed = r.lines_processed := by
  cases success <;> rfl

/-! ### Sanity: the phased semantics agrees with the atomic handler -/

theorem runAlone_eq (ctx : EventCtx) (store : Option UploadRec) :
    runAlone ctx store = (process_csv_upload ctx store).1 := by
  cases hc : pyEndsWith (pyLower ctx.name) ".csv" with
  | false => simp [runAlone, stepInv, process_csv_upload, hc]
  | true =>
    cases hg : ctx.getFault with
    | some msg => simp [runAlone, stepInv, process_csv_upload, hc, hg]
    | none =>
      cases hs : should_skip store with
      | true => simp [runAlone, stepInv, process_csv_upload, hc, hg, hs]
      | false => simp [runAlone, stepInv, process_csv_upload, hc, hg, hs]

/-! ### Claim theorems -/

/-- Claim C9: a notification whose object name does not end with the
accepted ".csv" extension (case-insensitive suffix match) is a silent
no-op: the handler returns without error, creates no record, and
performs no store write. -/
theorem non_csv_no_op (ctx : EventCtx) (store : Option UploadRec)
    (h : pyEndsWith (pyLower ctx.name) ".csv" = false) :
    process_csv_upload ctx store = (store, false) := by
  simp [process_csv_upload, h]

/-- Witness for C9 at the object name "readme.txt". -/
theorem non_csv_no_op_witness :
    (pyEndsWith (pyLower "readme.txt") ".csv" = false) ∧
      process_csv_upload { ctxOk with name := "readme.txt" } (some recDone)
        = (some recDone, false) :=
  ⟨by decide,
    non_csv_no_op { ctxOk with name := "readme.txt" } (some recDone) (by decide)⟩

/-- Claim C10: an HTTP status-lookup request without an upload_id query
parameter yields a 400 response with an error body, independently of
the store (so no store read is performed). -/
theorem missing_upload_id_returns_400
    (store : String → Except String (Option UploadRec)) :
    get_upload_status none store
      = (.errBody "upload_id parameter is required", 400) := rfl

/-- Claim C5: a record whose status is "failed" is reclaimed by the next
delivery: the status read proceeds, and the claim write re-enters
"processing", recording processing_started_at. -/
theorem failed_reclaim_processing (ctx : EventCtx) (r : UploadRec)
    (hname : pyEndsWith (pyLower ctx.name) ".csv" = true)
    (hget : ctx.getFault = none)
    (hst : r.status = "failed") :
    stepInv ctx (some r) .start = (some r, .willClaim) ∧
    (stepInv ctx (some r) .willClaim).1.map (fun r2 => r2.status) = some "processing" ∧
    (stepInv ctx (some r) .willClaim).1.bind (fun r2 => r2.processing_started_at)
      = some ctx.t1 := by
  refine ⟨?_, ?_, ?_⟩
  · simp [stepInv, hname, hget, should_skip, hst]
  · simp [stepInv, claim_write]
  · simp [stepInv, claim_write]

/-- Witness for C5: the fixture record recFailed is reclaimed. -/
theorem failed_reclaim_processing_witness :
    (pyEndsWith (pyLower ctxOk.name) ".csv" = true) ∧
    (ctxOk.getFault = none) ∧ (recFailed.status = "failed") ∧
    (stepInv ctxOk (some recFailed) .start = (some recFailed, .willClaim) ∧
      (stepInv ctxOk (some recFailed) .willClaim).1.map (fun r2 => r2.status)
        = some "processing" ∧
      (stepInv ctxOk (some recFailed) .willClaim).1.bind
          (fun r2 => r2.processing_started_at) = some ctxOk.t1) :=
  ⟨by decide, rfl, rfl, failed_reclaim_processing ctxOk recFailed (by decide) rfl rfl⟩

/-- Claim C4 (amended): a delivery whose status read succeeds on a
record in status "done" is a no-op: the store is unchanged and no error
is raised.  (The original claim fails when the status read raises: see
the counterexample, where the error path overwrites "done".) -/
theorem done_skip_no_op (ctx : EventCtx) (store : Option UploadRec) (r : UploadRec)
    (hget : ctx.getFault = none) (hst : store = some r) (hdone : r.status = "done") :
    process_csv_upload ctx store = (store, false) := by
  subst hst
  cases hc : pyEndsWith (pyLower ctx.name) ".csv" with
  | false => simp [process_csv_upload, hc]
  | true => simp [process_csv_upload, hc, hget, should_skip, hdone]

/-- Witness for C4 on the fixture recDone. -/
theorem done_skip_no_op_witness :
    (ctxOk.getFault = none) ∧ (recDone.status = "done") ∧
      process_csv_upload ctxOk (some recDone) = (some recDone, false) :=
  ⟨rfl, rfl, done_skip_no_op ctxOk (some recDone) recDone rfl rfl rfl⟩

/-- Claim C4 counterexample: when the Firestore status read raises, a
later delivery for a record in status "done" transitions it out of
"done": the error path blindly overwrites the record to "failed". -/
theorem done_overwritten_on_get_fault :
    ((process_csv_upload { ctxOk with getFault := some "store unavailable" }
        (some recDone)).1.map (fun r => r.status) = some "failed") ∧
      recDone.status = "done" ∧ ("failed" : String) ≠ "done" :=
  ⟨rfl, rfl, by decide⟩

/-- Claim C3 (amended): every registration write puts the record
directly into status "processing" (there is no "pending" stage and no
queuedAt field), records processing_started_at, and overwrites the
metadata fields with the current event values; only fields outside the
write set, such as error_message, are preserved. -/
theorem registration_creates_processing_record (ctx : EventCtx) (uid : String)
    (doc : Option UploadRec) :
    (claim_write ctx uid doc).status = "processing" ∧
    (claim_write ctx uid doc).processing_started_at = some ctx.t1 ∧
    (claim_write ctx uid doc).bucket_name = ctx.bucket ∧
    (claim_write ctx uid doc).file_name = ctx.name ∧
    (claim_write ctx uid doc).file_size = ctx.size ∧
    (claim_write ctx uid doc).created_time = ctx.time_created ∧
    (claim_write ctx uid doc).error_message = doc.bind (fun r => r.error_message) := by
  cases doc <;> simp [claim_write]

/-- Claim C3 counterexample: the record created on first sighting has
status "processing", not "pending", already before any processing; and
re-registration overwrites the immutable metadata (file_size) with the
current event value. -/
theorem registration_not_pending :
    ((crun ctxOk ctxOk [true, true]
        { store := none, pa := .start, pb := .finished }).store.map
          (fun r => r.status) = some "processing") ∧
    (("processing" : String) ≠ "pending") ∧
    ((claim_write { ctxOk with size := 7 } "uid" (some recFailed)).file_size = 7) ∧
    (recFailed.file_size = 120) :=
  ⟨rfl, by decide, rfl, rfl⟩

/-- Claim C8 (amended): the handler catches every exception and always
reports successful handling to its caller; transient infrastructure
failures are recorded into the store best-effort (failures of that
recording are swallowed) and no retry signal is ever emitted. -/
theorem handler_never_raises (ctx : EventCtx) (store : Option UploadRec) :
    (process_csv_upload ctx store).2 = false := by
  cases hc : pyEndsWith (pyLower ctx.name) ".csv" with
  | false => simp [process_csv_upload, hc]
  | true =>
    cases hg : ctx.getFault with
    | some msg => simp [process_csv_upload, hc, hg]
    | none =>
      cases hs : should_skip store with
      | true => simp [process_csv_upload, hc, hg, hs]
      | false => simp [process_csv_upload, hc, hg, hs]

/-- Claim C8 counterexample: a transient store failure (the Firestore
read raises) and a transient storage failure (the blob download raises)
are both acknowledged as success, not surfaced to the delivery layer. -/
theorem transient_failure_not_surfaced :
    (process_csv_upload { ctxOk with getFault := some "Firestore unavailable" } none
      = (none, false)) ∧
    ((process_csv_upload { ctxOk with content := .error "storage timeout" } none).2
      = false) :=
  ⟨rfl, rfl⟩

/-- Claim C6 (amended): for a claimed upload, a fetched file with fewer
than two newline-separated pieces is finalized as "failed" and the
delivery is acknowledged (no redelivery requested); a file with at
least two pieces is finalized as "done", but no lines_processed result
metadata is written — the field keeps its previous value, absent on
every record this pipeline creates. -/
theorem validation_boundary_outcomes (ctx : EventCtx) (store : Option UploadRec)
    (s : String)
    (hname : pyEndsWith (pyLower ctx.name) ".csv" = true)
    (hget : ctx.getFault = none)
    (hskip : should_skip store = false)
    (hc : ctx.content = .ok s) :
    ((pySplitLines s).length < 2 →
      (process_csv_upload ctx store).1.map (fun r => r.status) = some "failed" ∧
      (process_csv_upload ctx store).2 = false) ∧
    (2 ≤ (pySplitLines s).length →
      (process_csv_upload ctx store).1.map (fun r => r.status) = some "done" ∧
      (process_csv_upload ctx store).1.map (fun r => r.lines_processed)
        = some (store.bind (fun r => r.lines_processed)) ∧
      (process_csv_upload ctx store).2 = false) := by
  constructor
  · intro hlt
    simp [process_csv_upload, hname, hget, hskip, process_csv_file, hc, hlt,
      finalize_write]
  · intro hge
    have hlt : ¬ (pySplitLines s).length < 2 := by omega
    cases store with
    | none =>
      simp [process_csv_upload, hname, hget, hskip, process_csv_file, hc, hlt,
        finalize_write, claim_write]
    | some r =>
      simp [process_csv_upload, hname, hget, hskip, process_csv_file, hc, hlt,
        finalize_write, claim_write]

/-- Witness for C6: a two-line file processed from an absent record. -/
theorem validation_boundary_outcomes_witness :
    (pyEndsWith (pyLower ctxOk.name) ".csv" = true) ∧
    (ctxOk.getFault = none) ∧ (should_skip none = false) ∧
    (ctxOk.content = .ok "h1,h2\nv1,v2") ∧
    (2 ≤ (pySplitLines "h1,h2\nv1,v2").length) ∧
    ((process_csv_upload ctxOk none).1.map (fun r => r.status) = some "done" ∧
      (process_csv_upload ctxOk none).1.map (fun r => r.lines_processed)
        = some ((none : Option UploadRec).bind (fun r => r.lines_processed)) ∧
      (process_csv_upload ctxOk none).2 = false) :=
  ⟨by decide, rfl, rfl, rfl, by decide,
    (validation_boundary_outcomes ctxOk none "h1,h2\nv1,v2" (by decide) rfl rfl rfl).2
      (by decide)⟩

/-- Claim C6 counterexample: a two-line file is finalized as "done" but
the done record carries no lines_processed value, where the claim
requires lines_processed to be set. -/
theorem done_without_lines_processed :
    ((process_csv_upload ctxOk none).1.map (fun r => r.status) = some "done") ∧
    ((process_csv_upload ctxOk none).1.map (fun r => r.lines_processed)
      = some none) :=
  ⟨rfl, rfl⟩

/-- Claim C7 (amended): no handler path ever writes lines_processed (so
it is absent on every record the pipeline creates, and only vacuously
present exactly on done records), while transitions into "processing"
and "done" do not clear error_message, so a stale error_message from an
earlier failure can persist on a non-failed record. -/
theorem lines_processed_never_set (ctx : EventCtx) (store : Option UploadRec) :
    (process_csv_upload ctx store).1.bind (fun r => r.lines_processed)
      = store.bind (fun r => r.lines_processed) := by
  cases hc : pyEndsWith (pyLower ctx.name) ".csv" with
  | false => rw [process_csv_upload_nonCsv ctx store hc]
  | true =>
    cases hg : ctx.getFault with
    | some msg =>
      rw [process_csv_upload_fault ctx store msg hc hg]
      cases store <;> rfl
    | none =>
      cases hs : should_skip store with
      | true => rw [process_csv_upload_skip ctx store hc hg hs]
      | false =>
        rw [process_csv_upload_proceed ctx store hc hg hs]
        have h1 := finalize_write_lines (process_csv_file ctx.content) ctx.t2
          (claim_write ctx
            (generate_upload_id ctx.bucket ctx.name ctx.size (ctx.time_created.getD ""))
            store)
        have h2 := claim_write_lines ctx
          (generate_upload_id ctx.bucket ctx.name ctx.size (ctx.time_created.getD ""))
          store
        exact h1.trans h2

/-- Claim C7 counterexample: after a failed run, a successful rerun for
the same id finalizes the record as "done" while the stale
error_message written by the failure is still present, where the claim
requires error_message only on failed records. -/
theorem stale_error_message_on_done :
    ((process_csv_upload ctxOk
        (process_csv_upload { ctxOk with content := .ok "only-a-header" } none).1).1.map
          (fun r => r.status) = some "done") ∧
    ((process_csv_upload ctxOk
        (process_csv_upload { ctxOk with content := .ok "only-a-header" } none).1).1.bind
          (fun r => r.error_message) = some "Processing failed") :=
  ⟨rfl, rfl⟩

/-- Claim C1 (amended): the claim step is a separate status read
followed by an unconditional merge write, not an atomic conditional
write; reads that happen after another claimant's write do observe
"processing" and skip — this theorem — but two invocations whose reads
both precede either write can both enter processing, as the
counterexample shows. -/
theorem claim_read_after_write_skips (ctx : EventCtx) (store : Option UploadRec)
    (r : UploadRec)
    (hget : ctx.getFault = none) (hst : store = some r)
    (hp : r.status = "processing") :
    stepInv ctx store .start = (store, .finished) := by
  subst hst
  cases hc : pyEndsWith (pyLower ctx.name) ".csv" with
  | false => simp [stepInv, hc]
  | true => simp [stepInv, hc, hget, should_skip, hp]

/-- Witness for C1: a read against the in-flight fixture recProcessing
skips. -/
theorem claim_read_after_write_skips_witness :
    (ctxOk.getFault = none) ∧ (recProcessing.status = "processing") ∧
      stepInv ctxOk (some recProcessing) .start = (some recProcessing, .finished) :=
  ⟨rfl, rfl,
    claim_read_after_write_skips ctxOk (some recProcessing) recProcessing rfl rfl rfl⟩

/-- Claim C1 counterexample: under the interleaving read-A, read-B,
write-A, write-B of two concurrent deliveries of the same id starting
from an absent record, both invocations enter processing (both reach
phase claimed), where the claim requires exactly one claimant to
proceed. -/
theorem double_claim_interleaving :
    ((crun ctxOk ctxOk [true, false, true, false]
        { store := none, pa := .start, pb := .start }).pa = .claimed) ∧
    ((crun ctxOk ctxOk [true, false, true, false]
        { store := none, pa := .start, pb := .start }).pb = .claimed) ∧
    ((crun ctxOk ctxOk [true, false, true, false]
        { store := none, pa := .start, pb := .start }).store.map
          (fun r => r.status) = some "processing") :=
  ⟨rfl, rfl, rfl⟩

/-- Claim C2 (amended): the fingerprint is pure and deterministic, and
changing any single one of the four fields while holding the others
fixed changes the concatenated hash input; but the concatenation is
ambiguous — the hyphen separator may occur inside fields — so two
distinct field tuples can produce the same concatenation and hence the
same id, as the counterexample shows. -/
theorem fingerprint_deterministic_and_field_sensitive
    (b b2 f f2 : String) (s s2 : Nat) (c c2 : String) :
    (generate_upload_id b f s c = generate_upload_id b f s c) ∧
    (b ≠ b2 → uploadContent b f s c ≠ uploadContent b2 f s c) ∧
    (f ≠ f2 → uploadContent b f s c ≠ uploadContent b f2 s c) ∧
    (s ≠ s2 → uploadContent b f s c ≠ uploadContent b f s2 c) ∧
    (c ≠ c2 → uploadContent b f s c ≠ uploadContent b f s c2) := by
  refine ⟨rfl, ?_, ?_, ?_, ?_⟩
  · exact fun hne h => hne (uploadContent_bucket_inj h)
  · exact fun hne h => hne (uploadContent_file_inj h)
  · exact fun hne h => hne (uploadContent_size_inj h)
  · exact fun hne h => hne (uploadContent_created_inj h)

/-- Witness for C2 at concrete single-field changes. -/
theorem fingerprint_field_sensitive_witness :
    (("a" : String) ≠ "b") ∧ (("f" : String) ≠ "g") ∧ ((1 : Nat) ≠ 2) ∧
    (("c" : String) ≠ "d") ∧
    (uploadContent "a" "f" 1 "c" ≠ uploadContent "b" "f" 1 "c") ∧
    (uploadContent "a" "f" 1 "c" ≠ uploadContent "a" "g" 1 "c") ∧
    (uploadContent "a" "f" 1 "c" ≠ uploadContent "a" "f" 2 "c") ∧
    (uploadContent "a" "f" 1 "c" ≠ uploadContent "a" "f" 1 "d") :=
  ⟨by decide, by decide, by decide, by decide,
    (fingerprint_deterministic_and_field_sensitive "a" "b" "f" "g" 1 2 "c" "d").2.1
      (by decide),
    (fingerprint_deterministic_and_field_sensitive "a" "b" "f" "g" 1 2 "c" "d").2.2.1
      (by decide),
    (fingerprint_deterministic_and_field_sensitive "a" "b" "f" "g" 1 2 "c" "d").2.2.2.1
      (by decide),
    (fingerprint_deterministic_and_field_sensitive "a" "b" "f" "g" 1 2 "c" "d").2.2.2.2
      (by decide)⟩

/-- Claim C2 counterexample: two distinct field tuples whose hyphenated
concatenations coincide yield the identical upload id, where the claim
requires distinct tuples to yield different ids. -/
theorem fingerprint_separator_collision :
    (generate_upload_id "a-b" "c" 0 "" = generate_upload_id "a" "b-c" 0 "") ∧
      (("a-b", "c") ≠ (("a" : String), ("b-c" : String))) := by
  constructor
  · have h : uploadContent "a-b" "c" 0 "" = uploadContent "a" "b-c" 0 "" := by decide
    unfold generate_upload_id
    rw [h]
  · decide

/-- Witness for C3: the registration write evaluated on the fixture
context and the fixture failed record. -/
theorem registration_creates_processing_record_witness :
    (claim_write ctxOk "uid" (some recFailed)).status = "processing" ∧
    (claim_write ctxOk "uid" (some recFailed)).processing_started_at = some ctxOk.t1 ∧
    (claim_write ctxOk "uid" (some recFailed)).bucket_name = ctxOk.bucket ∧
    (claim_write ctxOk "uid" (some recFailed)).file_name = ctxOk.name ∧
    (claim_write ctxOk "uid" (some recFailed)).file_size = ctxOk.size ∧
    (claim_write ctxOk "uid" (some recFailed)).created_time = ctxOk.time_created ∧
    (claim_write ctxOk "uid" (some recFailed)).error_message
      = (some recFailed).bind (fun r => r.error_message) :=
  registration_creates_processing_record ctxOk "uid" (some recFailed)

/-- Witness for C7: preservation of the absent lines_processed field on
a concrete reprocessing of the fixture failed record. -/
theorem lines_processed_never_set_witness :
    (process_csv_upload ctxOk (some recFailed)).1.bind (fun r => r.lines_processed)
      = (some recFailed).bind (fun r => r.lines_processed) :=
  lines_processed_never_set ctxOk (some recFailed)

/-- Witness for C8: the handler reports success on the fixture run. -/
theorem handler_never_raises_witness :
    (process_csv_upload ctxOk (some recFailed)).2 = false :=
  handler_never_raises ctxOk (some recFailed)

/-- Witness for C10: the 400 response on a concrete store. -/
theorem missing_upload_id_returns_400_witness :
    get_upload_status none (fun _ => .ok none)
      = (.errBody "upload_id parameter is required", 400) :=
  missing_upload_id_returns_400 (fun _ => .ok none)

end CsvPipeline
